import Mathlib

/-!
Verification of the job/run orchestration engine of the tbench-harbor-runner
backend against its natural-language specification.

The Python sources are shallowly embedded as pure Lean functions:

* `parse_harbor_results`  — src/backend/app/services/result_parser.py
* `run_task`              — src/backend/app/services/harbor_service.py
  (HarborService.run_task, from the point where the external process has
  produced an exit status, stdout/stderr text and an optional results
  directory; the config-file generation and subprocess plumbing that precede
  that point set no state the claims mention)
* `update_run_status`, `run_harbor_task`, and the reconciliation step —
  src/backend/workers/harbor_worker.py
* `create_job_and_queue_runs` — src/backend/app/services/job_manager.py

Python strings are modelled as `List Char` (`PyStr`), so that slicing
(`s[:10000]`, `s[-10000:]`) is ordinary `List.take`/`List.drop`.  Machine
floats read from reward files are modelled as `ℚ`; Python's `int()` is
truncation toward zero (`pyInt`).  Timestamps are an abstract `Nat` clock.
Filesystem contents consumed by the decoder are modelled as data: a file is
absent, present-but-unparseable, or present with decoded content, mirroring
the source's `exists()` checks and `try/except` around `json.load`/`float`.
-/

/-- Python strings as character lists, so that Python's character-indexed
slicing is `List.take`/`List.drop`. -/
abbrev PyStr := List Char

/-- Status enumeration shared by jobs and runs
(`JobStatus` in src/backend/app/models/schemas.py). -/
inductive JobStatus where
  | pending
  | running
  | completed
  | failed
deriving DecidableEq, Repr

/-- Terminal statuses, i.e. membership in `[JobStatus.COMPLETED, JobStatus.FAILED]`
as tested by the worker's reconciliation code. -/
def JobStatus.isTerminal : JobStatus → Bool
  | .completed => true
  | .failed => true
  | _ => false

/-- Python `int()` applied to a rational: truncation toward zero.
Models `int(reward)` in result_parser.py. -/
def pyInt (q : ℚ) : ℤ :=
  if q < 0 then ⌈q⌉ else ⌊q⌋

/-- Decoded content of a parseable `verifier/ctrf.json` file: the values the
parser extracts via `results.get("summary", {})` and `results.get("tests", [])`
with their `.get` defaults already applied. -/
structure CtrfData where
  passed : ℤ
  total : ℤ
  failed : ℤ
  details : List String
deriving DecidableEq, Repr

/-- Contents of one results directory as seen by `parse_harbor_results`:
for each of the two result files, `none` means the file is absent
(`exists()` is false), `some none` means it is present but reading it raises
(malformed JSON for `ctrf.json`, a non-float body for `reward.txt`), and
`some (some v)` means it is present and decodes to `v`. -/
structure ResultsDir where
  ctrf : Option (Option CtrfData)
  reward : Option (Option ℚ)
deriving DecidableEq, Repr

/-- Normalized outcome returned by `parse_harbor_results`. -/
structure ParsedResults where
  passed : ℤ
  total : ℤ
  failed : ℤ
  details : List String
  format : String
deriving DecidableEq, Repr

/-- Embedding of `parse_harbor_results` (result_parser.py, lines 8-59):
try the CTRF file; on absence or parse failure fall through to the reward
file; on absence or parse failure of that too, return the all-zero outcome. -/
def parse_harbor_results (rd : ResultsDir) : ParsedResults :=
  match rd.ctrf with
  | some (some d) =>
      { passed := d.passed, total := d.total, failed := d.failed,
        details := d.details, format := "ctrf" }
  | _ =>
      match rd.reward with
      | some (some r) =>
          { passed := pyInt r, total := 1, failed := 1 - pyInt r,
            details := [], format := "reward" }
      | _ =>
          { passed := 0, total := 0, failed := 0, details := [], format := "none" }

/-- The CTRF tier is unusable: the file is absent or parsing it raised. -/
def ctrfUnusable (rd : ResultsDir) : Bool :=
  match rd.ctrf with
  | some (some _) => false
  | _ => true

/-- The reward tier is unusable: the file is absent or `float()` on it raised. -/
def rewardUnusable (rd : ResultsDir) : Bool :=
  match rd.reward with
  | some (some _) => false
  | _ => true

/-- Right slice of a Python string: `s[-n:]`.  For `n ≤ length` this is the
last `n` characters; for longer `n` (Python semantics) the whole string,
which `Nat` subtraction gives for free. -/
def takeRight (l : PyStr) (n : Nat) : PyStr :=
  l.drop (l.length - n)

/-- Header prepended by harbor_service.py (lines 244 and 324) when an error
message is cut down to its last 10000 characters. -/
def truncatedHeader : PyStr :=
  "... (truncated, see error file) ...\n".toList

/-- Error-message truncation used by HarborService.run_task (lines 242-244
and 321-324): messages longer than 10000 characters keep their LAST 10000
characters behind an explanatory header. -/
def truncateErrorLast (msg : PyStr) : PyStr :=
  if 10000 < msg.length then truncatedHeader ++ takeRight msg 10000 else msg

/-- Error-message truncation used by the worker's exception handler
(harbor_worker.py lines 143-146): messages longer than 10000 characters keep
their FIRST 10000 characters followed by a marker. -/
def worker_truncate_error (msg : PyStr) : PyStr :=
  if 10000 < msg.length then msg.take 10000 ++ "... (truncated)".toList else msg

/-- Observable inputs to the classification part of HarborService.run_task:
the exit status, decoded stdout/stderr text of the external process
(harbor_service.py lines 154-158), the run number (used in log-file markers),
and the located results directory, `none` when `_find_result_path` and the
mtime fallback found nothing (lines 177-187). -/
structure ExecObs where
  runNumber : Nat
  returncode : ℤ
  stdoutText : PyStr
  stderrText : PyStr
  resultDir : Option ResultsDir
deriving DecidableEq, Repr

/-- Dictionary returned by HarborService.run_task, restricted to the keys the
worker reads (harbor_worker.py lines 94-99): `status`, `error` (absent in the
success-shaped returns), `tests_passed`, `tests_total`, `logs`.  The
`run_number`, `result`, `tests_failed`, `test_details` and `result_path`
entries of the source dictionaries are omitted: no claim mentions them. -/
structure RunTaskResult where
  status : String
  error : Option PyStr := none
  testsPassed : ℤ
  testsTotal : ℤ
  logs : PyStr
deriving DecidableEq, Repr

/-- Message of the TypeError raised at harbor_service.py line 199 (and again
at line 276): line 190 (and 265) binds `logs` to the PAIR returned by
`read_harbor_logs` (result_parser.py line 209 returns `combined_logs,
episodes`) without unpacking it, `if logs:` is true for any pair, and
`"\n\n--- Agent Execution Logs ---\n" + logs` adds a tuple to a str, which
raises TypeError with exactly this text. -/
def strTupleTypeError : PyStr :=
  "can only concatenate str (not \"tuple\") to str".toList

/-- Exception handler of HarborService.run_task (lines 303-334): returns a
failed outcome whose error and logs are the exception text capped to its last
10000 characters. -/
def exceptReturn (excMsg : PyStr) : RunTaskResult :=
  let em := truncateErrorLast excMsg
  { status := "failed", error := some em, testsPassed := 0, testsTotal := 0, logs := em }

/-- No-results failure branch of HarborService.run_task (lines 240-259):
error is stderr, else stdout, else a fixed message (Python `or` chain),
capped to the last 10000 characters; logs are stdout + newline + stderr
capped to a 50000-character prefix. -/
def noResultsFailure (obs : ExecObs) : RunTaskResult :=
  let errorMsg :=
    if obs.stderrText ≠ [] then obs.stderrText
    else if obs.stdoutText ≠ [] then obs.stdoutText
    else "Harbor execution failed".toList
  let combined := obs.stdoutText ++ "\n".toList ++ obs.stderrText
  let combined :=
    if 50000 < combined.length then
      combined.take 50000 ++ "\n... (truncated, see error file for full logs) ...".toList
    else combined
  { status := "failed", error := some (truncateErrorLast errorMsg),
    testsPassed := 0, testsTotal := 0, logs := combined }

/-- Database log truncation of HarborService.run_task (lines 221-225 and
285-289): logs beyond 50000 characters keep a prefix and a pointer to the
spill file named after the run number. -/
def dbLogs (runNumber : Nat) (l : PyStr) : PyStr :=
  if 50000 < l.length then
    l.take 50000 ++
      ("\n... (truncated, see harbor_logs_" ++ toString runNumber ++
        ".txt for full logs) ...").toList
  else l

/-- Zero-exit, no-results-directory branch of HarborService.run_task
(lines 261-301 with `result_path` absent): `test_results` is all zeros and
`logs` is the empty STRING (line 269), so the tuple-append at line 276 is
skipped; stderr is appended capped to 2000 characters; `passed` is 0, so the
status expression at line 300 yields "failed"; the dictionary has no
`error` key. -/
def zeroResultsReturn (obs : ExecObs) : RunTaskResult :=
  let passed : ℤ := 0
  let combined := obs.stdoutText
  let combined :=
    if obs.stderrText ≠ [] then
      combined ++ "\n\n--- Harbor Messages ---\n".toList ++ obs.stderrText.take 2000 ++
        (if 2000 < obs.stderrText.length then
          "\n... (truncated, see error file for full details) ...".toList
        else [])
    else combined
  { status := if 0 < passed then "completed" else "failed", error := none,
    testsPassed := 0, testsTotal := 0, logs := dbLogs obs.runNumber combined }

/-- Embedding of HarborService.run_task from line 154 on (after the external
process finished).  When a results directory was found, the source parses it
(line 189) and binds `logs` to the pair returned by `read_harbor_logs`
(line 190).  If the decoded total is positive (line 193), execution reaches
line 199, whose str + tuple addition raises TypeError (see
`strTupleTypeError`), so the classification, note-appending and
metrics-error pattern matching of lines 200-237 are dead code and the broad
`except Exception` at line 303 produces the returned value.  Otherwise, with
a non-zero exit status, the no-results failure of lines 240-259 is returned.
With a zero exit status and a results directory, line 263 re-enters the
parse-and-read sequence and the same tuple addition at line 276 raises, again
yielding the exception handler's value.  With a zero exit status and no
results directory, lines 268-269 set `logs` to the empty string and the
function returns normally (lines 291-301). -/
def run_task (obs : ExecObs) : RunTaskResult :=
  match obs.resultDir with
  | some rd =>
      let tr := parse_harbor_results rd
      if 0 < tr.total then
        exceptReturn strTupleTypeError
      else if obs.returncode ≠ 0 then
        noResultsFailure obs
      else
        exceptReturn strTupleTypeError
  | none =>
      if obs.returncode ≠ 0 then
        noResultsFailure obs
      else
        zeroResultsReturn obs

/-- Results directory of C2's failing input: a parseable CTRF file reporting
5 of 5 tests passed. -/
def c2ResultsDir : ResultsDir :=
  { ctrf := some (some { passed := 5, total := 5, failed := 0, details := [] }),
    reward := none }

/-- C2's failing input: the spec's own scenario — non-zero exit status whose
stderr matches the known metrics-defect pattern, with a results directory
decoding to total = 5. -/
def c2Obs : ExecObs :=
  { runNumber := 1, returncode := 1, stdoutText := [],
    stderrText :=
      ("IndexError: list index out of range in " ++
        "self._metrics[trial_config.task.source").toList,
    resultDir := some c2ResultsDir }

/-- Exception taxonomy for the worker task, enumerating the classes its
`isinstance` test distinguishes (harbor_worker.py line 159) plus the classes
that actually arise (ValueError from `ModelType(model)`, TypeError from the
tuple addition inside run_task — the latter is caught inside run_task and
never reaches the worker). -/
inductive PyExc where
  | connectionError
  | timeoutError
  | osError
  | valueError
  | typeError
  | genericError
deriving DecidableEq, Repr

/-- The worker's retriable test, `isinstance(exc, (ConnectionError,
TimeoutError, OSError))` (harbor_worker.py line 159). -/
def is_transient_exc : PyExc → Bool
  | .connectionError => true
  | .timeoutError => true
  | .osError => true
  | _ => false

/-- Celery task option `max_retries=3` (harbor_worker.py line 30). -/
def max_retries : Nat := 3

/-- Fixed retry delay, `countdown=60` (harbor_worker.py line 160). -/
def retry_countdown : Nat := 60

/-- Stored Run row, restricted to the columns the worker writes
(src/backend/app/db/models.py lines 20-34; the `job_id`, `run_number`,
`result_path` and `created_at` columns are never read by the embedded
operations and are omitted).  Nullable columns are `Option`. -/
structure RunRec where
  id : Nat
  status : JobStatus
  testsPassed : Option ℤ := none
  testsTotal : Option ℤ := none
  logs : Option PyStr := none
  error : Option PyStr := none
  startedAt : Option Nat := none
  completedAt : Option Nat := none
deriving DecidableEq, Repr

/-- Stored Job row, restricted to the mutable columns (models.py lines 8-18;
the identifying and immutable columns are omitted). -/
structure JobRec where
  status : JobStatus
  completedAt : Option Nat := none
deriving DecidableEq, Repr

/-- The shared store: one Job row and its sibling Run rows. -/
structure Store where
  job : JobRec
  runs : List RunRec
deriving DecidableEq, Repr

/-- Embedding of the worker's `update_run_status` helper (harbor_worker.py
lines 43-55): look the Run up by id, set its status, then apply the keyword
field assignments; a missing Run is silently skipped (`if run:`).  There is
no guard on the previous status: the new status is applied unconditionally. -/
def update_run_status (runs : List RunRec) (runId : Nat) (st : JobStatus)
    (setFields : RunRec → RunRec) : List RunRec :=
  runs.map (fun r => if r.id = runId then setFields { r with status := st } else r)

/-- Observable store operations of one worker-task execution, in program
order. -/
inductive WEvent where
  | runUpdate (st : JobStatus)
  | jobMarkRunning
  | reconcile
  | jobFinalize
  | retrySched (countdown : Nat)
  | reraise
deriving DecidableEq, Repr

/-- Job writes among the worker events. -/
def is_job_write : WEvent → Bool
  | .jobMarkRunning => true
  | .jobFinalize => true
  | _ => false

/-- Job writes performed by the reconciliation step. -/
def is_reconciler_job_write : WEvent → Bool
  | .jobFinalize => true
  | _ => false

/-- Reconciliation step of the worker (harbor_worker.py lines 103-137),
under a failure-free store: read all sibling Runs; if every one is terminal
(`status in [COMPLETED, FAILED]`) and the Job is not already terminal, set
the Job to COMPLETED and stamp its completion time; otherwise change
nothing.  The surrounding bounded retry-with-backoff loop (lines 105-136)
only re-runs this body after a store exception, so with a failure-free store
it executes the body exactly once; its other arms commit without writing. -/
def reconcile_job (store : Store) (now : Nat) : Store × List WEvent :=
  if store.runs.all (fun r => r.status.isTerminal) then
    if store.job.status.isTerminal then
      (store, [])
    else
      ({ store with job := { status := JobStatus.completed, completedAt := some now } },
        [WEvent.jobFinalize])
  else (store, [])

/-- Result of the worker's `asyncio.run(run_harbor_async())` call: either the
dictionary returned by HarborService.run_task, or an exception escaping the
surrounding task (for example ValueError from `ModelType(model)`;
harness-level failures never raise, run_task catches them). -/
inductive ExecResult where
  | ok (res : RunTaskResult)
  | raises (e : PyExc) (msg : PyStr)
deriving DecidableEq, Repr

/-- Embedding of the worker task `run_harbor_task` (harbor_worker.py
lines 30-163) over a failure-free store, as a state transformer that also
reports its store operations in program order.  `retries` is Celery's
`self.request.retries` for this delivery.  Steps: mark the Run RUNNING
(lines 72-75); move the Job PENDING → RUNNING if still pending
(lines 78-87); then either persist the executor's result and reconcile
(lines 93-137), or — when the surrounding task raised — record the Run
FAILED with the exception text capped to a 10000-character prefix
(lines 142-152) and then schedule a retry with a fixed 60-unit countdown if
the exception class is retriable and the attempt ceiling is not reached, and
re-raise otherwise (lines 158-163; `self.retry` past `max_retries` re-raises
the passed exception instead of scheduling). -/
def run_harbor_task (store : Store) (runId : Nat) (exec : ExecResult)
    (retries : Nat) (now : Nat) : Store × List WEvent :=
  let s1 : Store :=
    { store with
      runs := update_run_status store.runs runId JobStatus.running
        (fun r => { r with startedAt := some now }) }
  let markPending := s1.job.status = JobStatus.pending
  let s2 : Store :=
    if markPending then { s1 with job := { s1.job with status := JobStatus.running } }
    else s1
  let e2 : List WEvent :=
    [WEvent.runUpdate JobStatus.running] ++
      (if markPending then [WEvent.jobMarkRunning] else [])
  match exec with
  | .ok res =>
      let st := if res.status = "completed" then JobStatus.completed else JobStatus.failed
      let s3 : Store :=
        { s2 with
          runs := update_run_status s2.runs runId st
            (fun r =>
              { r with testsPassed := some res.testsPassed,
                       testsTotal := some res.testsTotal,
                       logs := some res.logs,
                       error := res.error,
                       completedAt := some now }) }
      let s4e := reconcile_job s3 now
      (s4e.1, e2 ++ [WEvent.runUpdate st, WEvent.reconcile] ++ s4e.2)
  | .raises e msg =>
      let s3 : Store :=
        { s2 with
          runs := update_run_status s2.runs runId JobStatus.failed
            (fun r =>
              { r with error := some (worker_truncate_error msg),
                       completedAt := some now }) }
      let e3 := e2 ++ [WEvent.runUpdate JobStatus.failed]
      if is_transient_exc e then
        if retries < max_retries then (s3, e3 ++ [WEvent.retrySched retry_countdown])
        else (s3, e3 ++ [WEvent.reraise])
      else (s3, e3 ++ [WEvent.reraise])

/-- Store operations of the dispatcher, in program order. -/
inductive DEvent where
  | addJob
  | flushJob
  | addRun (i : Nat)
  | enqueue (i : Nat)
  | commitTxn
deriving DecidableEq, Repr

/-- Embedding of `create_job_and_queue_runs` (job_manager.py lines 12-76) as
its sequence of store and queue operations: add the Job row and flush it
(lines 50-51); then FOR EACH run index 1..n, add the Run row and immediately
enqueue the Celery work item for it (lines 54-73); commit the transaction
only after the loop (line 75).  Filesystem staging (lines 24-38) touches no
store or queue and is omitted. -/
def create_job_and_queue_runs (nRuns : Nat) : List DEvent :=
  [DEvent.addJob, DEvent.flushJob] ++
    (List.range' 1 nRuns).flatMap (fun i => [DEvent.addRun i, DEvent.enqueue i]) ++
    [DEvent.commitTxn]

/-- C10: the Result Decoder is a total function (the embedding returns a
`ParsedResults` for every `ResultsDir`, mirroring the source's per-tier
`try/except`), its `format` tag is always one of the three tiers, and when
neither the CTRF file nor the reward file is usable it returns the all-zero
outcome with `format = "none"`. -/
theorem C10_decoder_total_and_zero_on_unusable (rd : ResultsDir) :
    ((parse_harbor_results rd).format = "ctrf" ∨
     (parse_harbor_results rd).format = "reward" ∨
     (parse_harbor_results rd).format = "none") ∧
    (ctrfUnusable rd = true → rewardUnusable rd = true →
      parse_harbor_results rd =
        { passed := 0, total := 0, failed := 0, details := [], format := "none" }) := by
  constructor
  · unfold parse_harbor_results
    rcases rd with ⟨ctrf, reward⟩
    rcases ctrf with _ | c
    · rcases reward with _ | r
      · simp
      · rcases r with _ | v <;> simp
    · rcases c with _ | d
      · rcases reward with _ | r
        · simp
        · rcases r with _ | v <;> simp
      · simp
  · intro hc hr
    unfold parse_harbor_results
    rcases rd with ⟨ctrf, reward⟩
    rcases ctrf with _ | c
    · rcases reward with _ | r
      · rfl
      · rcases r with _ | v
        · rfl
        · simp [rewardUnusable] at hr
    · rcases c with _ | d
      · rcases reward with _ | r
        · rfl
        · rcases r with _ | v
          · rfl
          · simp [rewardUnusable] at hr
      · simp [ctrfUnusable] at hc

/-- Witness for C10 at a directory with both files absent. -/
theorem C10_decoder_total_and_zero_on_unusable_witness :
    parse_harbor_results { ctrf := none, reward := none } =
      { passed := 0, total := 0, failed := 0, details := [], format := "none" } :=
  (C10_decoder_total_and_zero_on_unusable { ctrf := none, reward := none }).2
    (by decide) (by decide)

/-- C7 counterexample: a reward file holding 3/5 (a float in [0,1]).
The claim says the decoder returns `passed = round r`; the source computes
`int(reward)`, which truncates, so at r = 3/5 the decoded `passed` is 0
while `round (3/5) = 1`. -/
theorem C7_counterexample_reward_truncates :
    (0 : ℚ) ≤ 3 / 5 ∧ (3 : ℚ) / 5 ≤ 1 ∧
    (parse_harbor_results { ctrf := none, reward := some (some (3 / 5)) }).passed
      ≠ round ((3 : ℚ) / 5) := by
  refine ⟨by norm_num, by norm_num, ?_⟩
  have h1 : (parse_harbor_results
      { ctrf := none, reward := some (some (3 / 5)) }).passed = 0 := by
    simp [parse_harbor_results, pyInt]
    norm_num [Int.floor_eq_zero_iff]
  have h2 : round ((3 : ℚ) / 5) = 1 := by norm_num [round_eq]
  rw [h1, h2]
  decide

/-- C7 amended: for a reward file holding a float r with 0 ≤ r ≤ 1, consulted
when the CTRF tier is unusable, the decoder returns total = 1,
passed = ⌊r⌋ (Python `int()` truncation, not rounding), failed = 1 - ⌊r⌋,
and format = "reward". -/
theorem C7_reward_file_decoding (rd : ResultsDir) (r : ℚ)
    (hc : ctrfUnusable rd = true) (hr : rd.reward = some (some r))
    (h0 : 0 ≤ r) (_hle : r ≤ 1) :
    parse_harbor_results rd =
      { passed := ⌊r⌋, total := 1, failed := 1 - ⌊r⌋, details := [],
        format := "reward" } := by
  have hp : pyInt r = ⌊r⌋ := by
    unfold pyInt
    rw [if_neg (not_lt.mpr h0)]
  unfold parse_harbor_results
  rcases rd with ⟨ctrf, reward⟩
  simp only at hr
  subst hr
  rcases ctrf with _ | c
  · simp [hp]
  · rcases c with _ | d
    · simp [hp]
    · simp [ctrfUnusable] at hc

/-- Witness for C7 at a reward file holding 1: decodes to passed 1, failed 0. -/
theorem C7_reward_file_decoding_witness :
    parse_harbor_results { ctrf := none, reward := some (some 1) } =
      { passed := 1, total := 1, failed := 0, details := [], format := "reward" } := by
  have h := C7_reward_file_decoding { ctrf := none, reward := some (some 1) } 1
    (by decide) rfl (by norm_num) (by norm_num)
  simpa using h

/-- C1: the reconciliation step finalizes the Job to Completed with a
completion timestamp exactly when every sibling Run is terminal and the Job
is not already terminal — regardless of how many siblings individually
Failed, since only terminal-ness is tested; if some sibling is not terminal,
or the Job is already terminal, the store is left unchanged. -/
theorem C1_reconcile_finalizes_iff_all_terminal (store : Store) (now : Nat) :
    ((∀ r ∈ store.runs, r.status.isTerminal = true) →
      store.job.status.isTerminal = false →
      (reconcile_job store now).1.job.status = JobStatus.completed ∧
      (reconcile_job store now).1.job.completedAt = some now ∧
      (reconcile_job store now).1.runs = store.runs) ∧
    ((∃ r ∈ store.runs, r.status.isTerminal = false) →
      (reconcile_job store now).1 = store ∧ (reconcile_job store now).2 = []) ∧
    (store.job.status.isTerminal = true →
      (reconcile_job store now).1 = store ∧ (reconcile_job store now).2 = []) := by
  refine ⟨?_, ?_, ?_⟩
  · intro hall hjob
    have hall' : store.runs.all (fun r => r.status.isTerminal) = true :=
      List.all_eq_true.mpr hall
    simp [reconcile_job, hall', hjob]
  · rintro ⟨r, hr, hnt⟩
    have hall' : store.runs.all (fun r => r.status.isTerminal) = false := by
      rw [List.all_eq_false]
      exact ⟨r, hr, by simp [hnt]⟩
    simp [reconcile_job, hall']
  · intro hjob
    unfold reconcile_job
    rcases h : store.runs.all (fun r => r.status.isTerminal) with _ | _
    · simp
    · simp [hjob]

/-- Witness for C1: a Job still Running over siblings Completed, Failed,
Failed is finalized to Completed with the completion timestamp stamped. -/
theorem C1_reconcile_finalizes_iff_all_terminal_witness :
    (reconcile_job
      { job := { status := JobStatus.running },
        runs := [{ id := 1, status := JobStatus.completed },
                 { id := 2, status := JobStatus.failed },
                 { id := 3, status := JobStatus.failed }] } 5).1.job.status =
      JobStatus.completed ∧
    (reconcile_job
      { job := { status := JobStatus.running },
        runs := [{ id := 1, status := JobStatus.completed },
                 { id := 2, status := JobStatus.failed },
                 { id := 3, status := JobStatus.failed }] } 5).1.job.completedAt =
      some 5 ∧
    (reconcile_job
      { job := { status := JobStatus.running },
        runs := [{ id := 1, status := JobStatus.completed },
                 { id := 2, status := JobStatus.failed },
                 { id := 3, status := JobStatus.failed }] } 5).1.runs =
      [{ id := 1, status := JobStatus.completed },
       { id := 2, status := JobStatus.failed },
       { id := 3, status := JobStatus.failed }] :=
  C1_reconcile_finalizes_iff_all_terminal
    { job := { status := JobStatus.running },
      runs := [{ id := 1, status := JobStatus.completed },
               { id := 2, status := JobStatus.failed },
               { id := 3, status := JobStatus.failed }] } 5
    |>.1 (by decide) (by decide)

/-- C4 counterexample: the store-level update has no terminal-state guard.
A Run already Completed, updated to Running, is silently moved back to
Running — not rejected, and no InvalidTransition error exists anywhere in
the code (the embedded update returns a plain row list, mirroring the
guard-free source). -/
theorem C4_counterexample_terminal_update_applied :
    (update_run_status
        [{ id := 1, status := JobStatus.completed, completedAt := some 3 }]
        1 JobStatus.running id).map (fun r => r.status) = [JobStatus.running] ∧
    JobStatus.running ≠ JobStatus.completed := by
  decide

/-- C4 amended: `update_run_status` applies every requested status update
unconditionally — in particular an update that moves a Run out of a terminal
state is applied silently; nothing is rejected and no error is signalled. -/
theorem C4_updates_applied_unconditionally (runs : List RunRec) (runId : Nat)
    (st : JobStatus) (j : Nat) (r : RunRec)
    (hj : runs[j]? = some r) (hid : r.id = runId) :
    (update_run_status runs runId st id)[j]? = some { r with status := st } := by
  unfold update_run_status
  rw [List.getElem?_map, hj]
  simp [hid]

/-- Witness for C4 amended: a Completed Run is silently set back to Running. -/
theorem C4_updates_applied_unconditionally_witness :
    (update_run_status
        [{ id := 7, status := JobStatus.completed, completedAt := some 3 }]
        7 JobStatus.running id)[0]? =
      some { id := 7, status := JobStatus.running, completedAt := some 3 } :=
  C4_updates_applied_unconditionally
    [{ id := 7, status := JobStatus.completed, completedAt := some 3 }]
    7 JobStatus.running 0
    { id := 7, status := JobStatus.completed, completedAt := some 3 }
    rfl rfl

/-- C5 counterexample: a worker execution whose surrounding task raises
(here ValueError) records its Run as Failed — making every sibling terminal
— yet performs no reconciliation: the trace has no reconcile step, and the
Job stays Running unfinalized. -/
theorem C5_counterexample_no_reconcile_on_exception :
    (run_harbor_task
        { job := { status := JobStatus.running },
          runs := [{ id := 1, status := JobStatus.pending },
                   { id := 2, status := JobStatus.completed }] }
        1 (ExecResult.raises PyExc.valueError "boom".toList) 0 7).1.runs.map
        (fun r => r.status) = [JobStatus.failed, JobStatus.completed] ∧
    WEvent.reconcile ∉
      (run_harbor_task
        { job := { status := JobStatus.running },
          runs := [{ id := 1, status := JobStatus.pending },
                   { id := 2, status := JobStatus.completed }] }
        1 (ExecResult.raises PyExc.valueError "boom".toList) 0 7).2 ∧
    (run_harbor_task
        { job := { status := JobStatus.running },
          runs := [{ id := 1, status := JobStatus.pending },
                   { id := 2, status := JobStatus.completed }] }
        1 (ExecResult.raises PyExc.valueError "boom".toList) 0 7).1.job.status =
      JobStatus.running := by
  decide

/-- C5 amended: the worker performs the reconciliation step exactly on the
paths where the executor's surrounding task returned a result; on exception
paths the Run is recorded Failed but reconciliation is not performed. -/
theorem C5_reconcile_iff_normal_return (store : Store) (runId : Nat)
    (exec : ExecResult) (retries now : Nat) :
    WEvent.reconcile ∈ (run_harbor_task store runId exec retries now).2 ↔
      ∃ res, exec = ExecResult.ok res := by
  unfold run_harbor_task
  rcases exec with res | ⟨e, msg⟩
  · simp
  · rcases h : is_transient_exc e with _ | _
    · simp [h]
    · rcases Nat.lt_or_ge retries max_retries with hr | hr
      · simp [h, hr]
      · simp [h, Nat.not_lt.mpr hr]

/-- Shape of the worker trace on an exception path: mark Running (plus the
Job PENDING → RUNNING write when applicable), record Failed, then either
schedule one fixed-delay retry (retriable class, ceiling not reached) or
re-raise. -/
theorem run_harbor_task_raises_trace (store : Store) (runId : Nat) (e : PyExc)
    (msg : PyStr) (retries now : Nat) :
    (run_harbor_task store runId (ExecResult.raises e msg) retries now).2 =
      [WEvent.runUpdate JobStatus.running] ++
        (if store.job.status = JobStatus.pending then [WEvent.jobMarkRunning]
         else []) ++
        [WEvent.runUpdate JobStatus.failed] ++
        (if is_transient_exc e = true ∧ retries < max_retries then
          [WEvent.retrySched retry_countdown]
        else [WEvent.reraise]) := by
  unfold run_harbor_task
  by_cases hmp : store.job.status = JobStatus.pending <;>
    rcases h : is_transient_exc e with _ | _ <;>
      rcases Nat.lt_or_ge retries max_retries with hr | hr <;>
        simp [hmp, h, hr, Nat.not_lt.mpr hr]

/-- C6: on an uncaught failure of the surrounding task, the worker records
the Run Failed; for transient-infrastructure classes (the ConnectionError /
TimeoutError / OSError test) below the ceiling of 3 attempts it schedules a
retry with the fixed 60-unit delay, the Failed record preceding the retry in
program order; at or above the ceiling, and for every other class, no retry
is scheduled and the exception is re-raised. -/
theorem C6_retry_policy (store : Store) (runId : Nat) (e : PyExc)
    (msg : PyStr) (retries now : Nat) :
    max_retries = 3 ∧ retry_countdown = 60 ∧
    WEvent.runUpdate JobStatus.failed ∈
      (run_harbor_task store runId (ExecResult.raises e msg) retries now).2 ∧
    (is_transient_exc e = true → retries < max_retries →
      WEvent.retrySched retry_countdown ∈
        (run_harbor_task store runId (ExecResult.raises e msg) retries now).2 ∧
      (run_harbor_task store runId (ExecResult.raises e msg) retries now).2.indexOf
          (WEvent.runUpdate JobStatus.failed) <
        (run_harbor_task store runId (ExecResult.raises e msg) retries now).2.indexOf
          (WEvent.retrySched retry_countdown)) ∧
    (is_transient_exc e = true → max_retries ≤ retries →
      (∀ c, WEvent.retrySched c ∉
        (run_harbor_task store runId (ExecResult.raises e msg) retries now).2) ∧
      WEvent.reraise ∈
        (run_harbor_task store runId (ExecResult.raises e msg) retries now).2) ∧
    (is_transient_exc e = false →
      (∀ c, WEvent.retrySched c ∉
        (run_harbor_task store runId (ExecResult.raises e msg) retries now).2) ∧
      WEvent.reraise ∈
        (run_harbor_task store runId (ExecResult.raises e msg) retries now).2) := by
  have ht := run_harbor_task_raises_trace store runId e msg retries now
  refine ⟨rfl, rfl, ?_, ?_, ?_, ?_⟩
  · rw [ht]
    by_cases hmp : store.job.status = JobStatus.pending <;> simp [hmp]
  · intro h hr
    rw [ht]
    by_cases hmp : store.job.status = JobStatus.pending <;>
      simp [hmp, h, hr]
  · intro h hr
    rw [ht]
    by_cases hmp : store.job.status = JobStatus.pending <;>
      simp [hmp, h, Nat.not_lt.mpr hr]
  · intro h
    rw [ht]
    by_cases hmp : store.job.status = JobStatus.pending <;> simp [hmp, h]

/-- Witness for C6: a ConnectionError on the first attempt records Failed and
then schedules a 60-unit retry. -/
theorem C6_retry_policy_witness :
    WEvent.retrySched retry_countdown ∈
      (run_harbor_task
        { job := { status := JobStatus.running },
          runs := [{ id := 1, status := JobStatus.pending }] }
        1 (ExecResult.raises PyExc.connectionError "x".toList) 0 2).2 ∧
    (run_harbor_task
        { job := { status := JobStatus.running },
          runs := [{ id := 1, status := JobStatus.pending }] }
        1 (ExecResult.raises PyExc.connectionError "x".toList) 0 2).2.indexOf
        (WEvent.runUpdate JobStatus.failed) <
      (run_harbor_task
        { job := { status := JobStatus.running },
          runs := [{ id := 1, status := JobStatus.pending }] }
        1 (ExecResult.raises PyExc.connectionError "x".toList) 0 2).2.indexOf
        (WEvent.retrySched retry_countdown) :=
  (C6_retry_policy
    { job := { status := JobStatus.running },
      runs := [{ id := 1, status := JobStatus.pending }] }
    1 PyExc.connectionError "x".toList 0 2).2.2.2.1 rfl (by decide)

/-- Reconciliation emits either no event or exactly one finalize write. -/
theorem reconcile_job_events (s : Store) (now : Nat) :
    (reconcile_job s now).2 = [] ∨
      (reconcile_job s now).2 = [WEvent.jobFinalize] := by
  unfold reconcile_job
  split_ifs <;> simp

/-- C9 counterexample: with the parent Job still Pending, the worker itself
(lines 77-87 of harbor_worker.py, not the reconciliation step) writes the Job
record, moving it to Running; the reconciliation step performs no write here
(a sibling is still Pending), so the Job mutation observed is not the
Reconciler's. -/
theorem C9_counterexample_worker_marks_job_running :
    WEvent.jobMarkRunning ∈
      (run_harbor_task
        { job := { status := JobStatus.pending },
          runs := [{ id := 1, status := JobStatus.pending },
                   { id := 2, status := JobStatus.pending }] }
        1 (ExecResult.ok { status := "failed", testsPassed := 0, testsTotal := 0,
                           logs := [] }) 0 4).2 ∧
    is_job_write WEvent.jobMarkRunning = true ∧
    is_reconciler_job_write WEvent.jobMarkRunning = false ∧
    (run_harbor_task
        { job := { status := JobStatus.pending },
          runs := [{ id := 1, status := JobStatus.pending },
                   { id := 2, status := JobStatus.pending }] }
        1 (ExecResult.ok { status := "failed", testsPassed := 0, testsTotal := 0,
                           logs := [] }) 0 4).1.job.status = JobStatus.running ∧
    WEvent.jobFinalize ∉
      (run_harbor_task
        { job := { status := JobStatus.pending },
          runs := [{ id := 1, status := JobStatus.pending },
                   { id := 2, status := JobStatus.pending }] }
        1 (ExecResult.ok { status := "failed", testsPassed := 0, testsTotal := 0,
                           logs := [] }) 0 4).2 := by
  decide

/-- C9 amended: after creation, Job records are written in exactly two
places — the worker's PENDING → RUNNING mark as a run starts (performed only
when the Job is still Pending), and the Reconciler's finalization; every Job
write in any worker trace is one of these two. -/
theorem C9_job_writes_characterized (store : Store) (runId : Nat)
    (exec : ExecResult) (retries now : Nat) :
    (∀ ev ∈ (run_harbor_task store runId exec retries now).2,
      is_job_write ev = true →
        ev = WEvent.jobMarkRunning ∨ ev = WEvent.jobFinalize) ∧
    (WEvent.jobMarkRunning ∈ (run_harbor_task store runId exec retries now).2 →
      store.job.status = JobStatus.pending) := by
  have hrec : ∀ s ev, ev ∈ (reconcile_job s now).2 → ev = WEvent.jobFinalize := by
    intro s ev h
    unfold reconcile_job at h
    split_ifs at h <;> simp_all
  constructor
  · intro ev hev hw
    rcases exec with res | ⟨e, msg⟩
    · unfold run_harbor_task at hev
      by_cases hmp : store.job.status = JobStatus.pending
      · simp only [hmp, if_true, if_false, List.mem_append, List.mem_cons,
          List.mem_singleton, List.not_mem_nil, or_false, false_or,
          reduceIte] at hev
        rcases hev with ((h | h) | h | h) | h
        · subst h; simp [is_job_write] at hw
        · exact Or.inl h
        · subst h; simp [is_job_write] at hw
        · subst h; simp [is_job_write] at hw
        · exact Or.inr (hrec _ _ h)
      · simp only [hmp, if_true, if_false, List.mem_append, List.mem_cons,
          List.mem_singleton, List.not_mem_nil, or_false, false_or,
          reduceIte] at hev
        rcases hev with (h | h | h) | h
        · subst h; simp [is_job_write] at hw
        · subst h; simp [is_job_write] at hw
        · subst h; simp [is_job_write] at hw
        · exact Or.inr (hrec _ _ h)
    · rw [run_harbor_task_raises_trace] at hev
      by_cases hmp : store.job.status = JobStatus.pending
      · simp only [hmp, if_true, if_false, List.mem_append, List.mem_cons,
          List.mem_singleton, List.not_mem_nil, or_false, false_or,
          reduceIte] at hev
        rcases hev with ((h | h) | h) | h
        · subst h; simp [is_job_write] at hw
        · exact Or.inl h
        · subst h; simp [is_job_write] at hw
        · by_cases ht : is_transient_exc e = true ∧ retries < max_retries <;>
            simp [ht] at h <;> subst h <;> simp [is_job_write] at hw
      · simp only [hmp, if_true, if_false, List.mem_append, List.mem_cons,
          List.mem_singleton, List.not_mem_nil, or_false, false_or,
          reduceIte] at hev
        rcases hev with (h | h) | h
        · subst h; simp [is_job_write] at hw
        · subst h; simp [is_job_write] at hw
        · by_cases ht : is_transient_exc e = true ∧ retries < max_retries <;>
            simp [ht] at h <;> subst h <;> simp [is_job_write] at hw
  · intro hmem
    by_cases hmp : store.job.status = JobStatus.pending
    · exact hmp
    · exfalso
      rcases exec with res | ⟨e, msg⟩
      · unfold run_harbor_task at hmem
        simp only [hmp, if_true, if_false, List.mem_append, List.mem_cons,
          List.mem_singleton, List.not_mem_nil, or_false, false_or,
          reduceIte] at hmem
        rcases hmem with (h | h | h) | h
        · exact absurd h (by decide)
        · exact absurd h (by simp)
        · exact absurd h (by decide)
        · exact absurd (hrec _ _ h) (by decide)
      · rw [run_harbor_task_raises_trace] at hmem
        simp only [hmp, if_true, if_false, List.mem_append, List.mem_cons,
          List.mem_singleton, List.not_mem_nil, or_false, false_or,
          reduceIte] at hmem
        by_cases ht : is_transient_exc e = true ∧ retries < max_retries <;>
          simp [ht] at hmem

/-- Witness for C9 amended: at a Pending Job whose trace contains the
mark-running write, the characterization recovers that the Job was Pending. -/
theorem C9_job_writes_characterized_witness :
    ({ job := { status := JobStatus.pending },
       runs := [{ id := 1, status := JobStatus.pending }] } : Store).job.status =
      JobStatus.pending :=
  (C9_job_writes_characterized
    { job := { status := JobStatus.pending },
      runs := [{ id := 1, status := JobStatus.pending }] }
    1 (ExecResult.ok { status := "completed", testsPassed := 1, testsTotal := 1,
                       logs := [] }) 0 4).2 (by decide)

/-- C2 failing-input evaluation: at the spec's own scenario — a non-zero exit
status, stderr matching the known metrics-defect pattern, and a results
directory whose decoded total is 5 — the Run Executor does NOT classify the
outcome Completed: the unpacked-tuple slip at harbor_service.py line 199
raises TypeError before classification, the broad handler catches it, and the
returned outcome is Failed with the TypeError text as its error field. -/
theorem C2_failing_input_results_found_but_failed :
    (parse_harbor_results c2ResultsDir).total = 5 ∧
    c2Obs.resultDir = some c2ResultsDir ∧
    (run_task c2Obs).status = "failed" ∧
    (run_task c2Obs).error = some strTupleTypeError ∧
    (run_task c2Obs).testsPassed = 0 ∧ (run_task c2Obs).testsTotal = 0 := by
  refine ⟨rfl, rfl, ?_, ?_, rfl, rfl⟩ <;> rfl

/-- C3 failing-input evaluation: in the dispatcher's operation sequence for a
3-run job, the work item for run 1 is enqueued strictly before the
transaction commit that makes the Job/Run rows durable — the enqueue happens
inside the creation loop, before `session.commit()`. -/
theorem C3_failing_input_enqueue_precedes_commit :
    DEvent.enqueue 1 ∈ create_job_and_queue_runs 3 ∧
    DEvent.commitTxn ∈ create_job_and_queue_runs 3 ∧
    (create_job_and_queue_runs 3).indexOf (DEvent.enqueue 1) <
      (create_job_and_queue_runs 3).indexOf DEvent.commitTxn := by
  decide

/-- C8 counterexample: the worker's exception handler records a PREFIX, not
the last characters.  For the 10001-character text of 10000 copies of a
followed by one b, the last 10000 characters contain the b, but the recorded
message — the first 10000 characters plus a marker — does not; it is exactly
prefix-plus-marker. -/
theorem C8_counterexample_worker_truncation_keeps_prefix :
    10000 < (List.replicate 10000 'a' ++ ['b'] : PyStr).length ∧
    'b' ∈ takeRight (List.replicate 10000 'a' ++ ['b']) 10000 ∧
    'b' ∉ worker_truncate_error (List.replicate 10000 'a' ++ ['b']) ∧
    worker_truncate_error (List.replicate 10000 'a' ++ ['b']) =
      (List.replicate 10000 'a' ++ ['b']).take 10000 ++ "... (truncated)".toList := by
  have hlen : (List.replicate 10000 'a' ++ ['b'] : PyStr).length = 10001 := by
    rw [List.length_append, List.length_replicate]
    rfl
  have htake : (List.replicate 10000 'a' ++ ['b'] : PyStr).take 10000 =
      List.replicate 10000 'a' := by
    rw [List.take_append_of_le_length (le_of_eq (List.length_replicate 10000 'a').symm)]
    exact List.take_of_length_le (le_of_eq (List.length_replicate 10000 'a'))
  refine ⟨by rw [hlen]; norm_num, ?_, ?_, ?_⟩
  · unfold takeRight
    rw [hlen, show 10001 - 10000 = 1 from rfl,
      List.drop_append_of_le_length
        (by rw [List.length_replicate]; norm_num)]
    exact List.mem_append_right _ (List.mem_singleton_self 'b')
  · unfold worker_truncate_error
    rw [if_pos (by rw [hlen]; norm_num), htake]
    intro hmem
    rcases List.mem_append.mp hmem with h | h
    · exact absurd (List.eq_of_mem_replicate h) (by decide)
    · exact absurd h (by decide)
  · unfold worker_truncate_error
    rw [if_pos (by rw [hlen]; norm_num)]

/-- C8 amended: every recorded failure message is bounded to about 10000
characters, but the two layers truncate differently: the Run Executor's
truncation (harbor_service.py) keeps exactly the LAST 10000 characters,
appearing as a suffix behind a 36-character header, while the worker's
exception handler (harbor_worker.py) keeps the FIRST 10000 characters as a
prefix followed by a 15-character marker. -/
theorem C8_error_truncation_bounds (msg : PyStr) (h : 10000 < msg.length) :
    (takeRight msg 10000).length = 10000 ∧
    (truncateErrorLast msg).length = 10036 ∧
    takeRight msg 10000 <:+ truncateErrorLast msg ∧
    (worker_truncate_error msg).length = 10015 ∧
    msg.take 10000 <+: worker_truncate_error msg := by
  have hTr : (takeRight msg 10000).length = 10000 := by
    unfold takeRight
    rw [List.length_drop]
    omega
  refine ⟨hTr, ?_, ?_, ?_, ?_⟩
  · unfold truncateErrorLast
    rw [if_pos h, List.length_append, hTr]
    decide
  · unfold truncateErrorLast
    rw [if_pos h]
    exact List.suffix_append _ _
  · unfold worker_truncate_error
    rw [if_pos h, List.length_append, List.length_take]
    have : min 10000 msg.length = 10000 := by omega
    rw [this]
    decide
  · unfold worker_truncate_error
    rw [if_pos h]
    exact List.prefix_append _ _

/-- Witness for C8 amended at a 10001-character message. -/
theorem C8_error_truncation_bounds_witness :
    (takeRight (List.replicate 10001 'c') 10000).length = 10000 ∧
    (truncateErrorLast (List.replicate 10001 'c')).length = 10036 ∧
    takeRight (List.replicate 10001 'c') 10000 <:+
      truncateErrorLast (List.replicate 10001 'c') ∧
    (worker_truncate_error (List.replicate 10001 'c')).length = 10015 ∧
    (List.replicate 10001 'c').take 10000 <+:
      worker_truncate_error (List.replicate 10001 'c') :=
  C8_error_truncation_bounds (List.replicate 10001 'c')
    (by rw [List.length_replicate]; norm_num)
